import Mathlib

/-!
Shallow embedding of `paasta_tools/vitesscluster_tools.py` (Vitess cluster
configuration synthesis) and proofs about its behaviour.

Python dictionaries are modelled by the JSON-like inductive `Jx` together with
insertion-ordered association lists (`List (String × _)`); Python dict
assignment `d[k] = v` is `dset` (replace in place when the key exists,
append otherwise, matching CPython's ordered-dict semantics), and dict
lookup is `dget`.  A value that Python's `dict.get` may return as `None`
is an `Option`; a Python f-string renders `None` as the string "None"
(`pystr`), while placing a `None` value directly in a dict stores a null
(`jopt`).  A Python function that can raise (KeyError / TypeError) is
embedded returning `Option`, `none` meaning the exception propagates and
synthesis aborts.
-/

/-- Jx is an untyped JSON-like tree mirroring the Python dict/list/scalar
values that `vitesscluster_tools.py` manipulates.  `flo` carries the one
float literal (the autoscaling setpoint) as a rational. -/
inductive Jx where
  | null : Jx
  | bool (b : Bool) : Jx
  | num (n : Int) : Jx
  | flo (q : Rat) : Jx
  | str (s : String) : Jx
  | arr (xs : List Jx) : Jx
  | obj (fields : List (String × Jx)) : Jx

/-- Python ordered-dict assignment `d[k] = v` on an association list:
replace the value in place if the key is present, append otherwise. -/
def dset {α : Type} : List (String × α) → String → α → List (String × α)
  | [], k, v => [(k, v)]
  | (k', v') :: rest, k, v =>
    if k' = k then (k, v) :: rest else (k', v') :: dset rest k v

/-- Python dict lookup `d[k]` / `d.get(k)` on an association list. -/
def dget {α : Type} : List (String × α) → String → Option α
  | [], _ => none
  | (k', v') :: rest, k => if k' = k then some v' else dget rest k

/-- Field lookup on a `Jx` object. -/
def jget : Jx → String → Option Jx
  | .obj fs, k => dget fs k
  | _, _ => none

/-- Python f-string rendering of a possibly-`None` string value
(f-strings print `None` as "None"). -/
def pystr : Option String → String
  | some s => s
  | none => "None"

/-- Placing a possibly-`None` Python string value directly in a dict:
`None` becomes a null, a string stays a string. -/
def jopt : Option String → Jx
  | some s => .str s
  | none => .null

/-- Placing a possibly-`None` Python value directly in a dict. -/
def joptJ : Option Jx → Jx
  | some j => j
  | none => .null

/-- Python `s.startswith(pre)`. -/
def startswith (s pre : String) : Bool := pre.data.isPrefixOf s.data

/-- Lifting a string-valued flag dict into a `Jx` object. -/
def flagsJ (l : List (String × String)) : Jx :=
  .obj (l.map (fun p => (p.1, Jx.str p.2)))

/-! Module-level constants of `vitesscluster_tools.py`. -/

def IMAGE_TAG : String := "v16.0.3"

def VTCTLD_IMAGE : String :=
  "docker-paasta.yelpcorp.com:443/vitess_base:" ++ IMAGE_TAG

def VT_GATE_IMAGE : String :=
  "docker-paasta.yelpcorp.com:443/vitess_base:" ++ IMAGE_TAG

def VT_TABLET_IMAGE : String :=
  "docker-paasta.yelpcorp.com:443/vitess_base:" ++ IMAGE_TAG

def VT_ADMIN_IMAGE : String := "docker-dev.yelpcorp.com/vtadmin:" ++ IMAGE_TAG

def TOPO_IMPLEMENTATION : String := "zk2"

def TOPO_GLOBAL_ROOT : String := "/vitess-paasta/global"

def SOURCE_DB_HOST : String := "169.254.255.254"

/-- Fixed ordered set of tablet roles the fan-out iterates over. -/
def TABLET_TYPES : List String := ["primary", "migration"]

def WEB_PORT : String := "15000"

def GRPC_PORT : String := "15999"

/-- Template blueprint `VTCTLD_EXTRA_ENV`. -/
def VTCTLD_EXTRA_ENV : List Jx :=
  [.obj [("name", .str "WEB_PORT"), ("value", .str WEB_PORT)],
   .obj [("name", .str "GRPC_PORT"), ("value", .str GRPC_PORT)],
   .obj [("name", .str "TOPOLOGY_FLAGS"), ("value", .str "")]]

/-- Template blueprint `VTTABLET_EXTRA_ENV`. -/
def VTTABLET_EXTRA_ENV : List Jx :=
  [.obj [("name", .str "CELL_TOPOLOGY_SERVERS"), ("value", .str "")],
   .obj [("name", .str "SHARD"), ("value", .str "0")],
   .obj [("name", .str "DB"), ("value", .str "")],
   .obj [("name", .str "EXTERNAL_DB"), ("value", .str "1")],
   .obj [("name", .str "KEYSPACE"), ("value", .str "")],
   .obj [("name", .str "ROLE"), ("value", .str "rdonly")],
   .obj [("name", .str "WEB_PORT"), ("value", .str WEB_PORT)],
   .obj [("name", .str "GRPC_PORT"), ("value", .str GRPC_PORT)],
   .obj [("name", .str "TOPOLOGY_FLAGS"), ("value", .str "")],
   .obj [("name", .str "VAULT_ADDR"),
         ("value", .str "https://vault-dre.uswest1-devc.yelpcorp.com:8200")],
   .obj [("name", .str "VAULT_ROLEID"),
         ("valueFrom", .obj [("secretKeyRef", .obj
           [("name", .str "paasta-vitessclusters-secret-vitess-k8s-vault-vttablet-approle-roleid"),
            ("key", .str "vault-vttablet-approle-roleid")])])],
   .obj [("name", .str "VAULT_SECRETID"),
         ("valueFrom", .obj [("secretKeyRef", .obj
           [("name", .str "paasta-vitessclusters-secret-vitess-k8s-vault-vttablet-approle-secretid"),
            ("key", .str "vault-vttablet-approle-secretid")])])],
   .obj [("name", .str "VAULT_CACERT"),
         ("value", .str "/etc/vault/all_cas/acm-privateca-uswest1-devc.crt")]]

/-- Template blueprint `VTGATE_EXTRA_ENV`. -/
def VTGATE_EXTRA_ENV : List Jx :=
  [.obj [("name", .str "VAULT_ADDR"),
         ("value", .str "https://vault-dre.uswest1-devc.yelpcorp.com:8200")],
   .obj [("name", .str "VAULT_ROLEID"),
         ("valueFrom", .obj [("secretKeyRef", .obj
           [("name", .str "paasta-vitessclusters-secret-vitess-k8s-vault-vtgate-approle-roleid"),
            ("key", .str "vault-vtgate-approle-roleid")])])],
   .obj [("name", .str "VAULT_SECRETID"),
         ("valueFrom", .obj [("secretKeyRef", .obj
           [("name", .str "paasta-vitessclusters-secret-vitess-k8s-vault-vtgate-approle-secretid"),
            ("key", .str "vault-vtgate-approle-secretid")])])],
   .obj [("name", .str "VAULT_CACERT"),
         ("value", .str "/etc/vault/all_cas/acm-privateca-uswest1-devc.crt")]]

/-- Template blueprint `VTADMIN_EXTRA_FLAGS`. -/
def VTADMIN_EXTRA_FLAGS : List (String × String) :=
  [("grpc-allow-reflection", "true")]

/-- Template blueprint `VTCTLD_EXTRA_FLAGS`. -/
def VTCTLD_EXTRA_FLAGS : List (String × String) :=
  [("disable_active_reparents", "true"),
   ("security_policy", "read-only")]

/-- Template blueprint `VTTABLET_EXTRA_FLAGS`. -/
def VTTABLET_EXTRA_FLAGS : List (String × String) :=
  [("log_err_stacks", "true"),
   ("grpc_max_message_size", "134217728"),
   ("init_tablet_type", "replica"),
   ("queryserver-config-schema-reload-time", "1800"),
   ("dba_pool_size", "4"),
   ("vreplication_heartbeat_update_interval", "60"),
   ("vreplication_tablet_type", "REPLICA"),
   ("keep_logs", "72h"),
   ("enable-lag-throttler", "true"),
   ("throttle_check_as_check_self", "true"),
   ("throttle_metrics_query", ""),
   ("throttle_metrics_threshold", ""),
   ("db_charset", "utf8mb4"),
   ("disable_active_reparents", "true")]

/-! Builder functions of `vitesscluster_tools.py`.  Parameters that the
Python code obtains via `dict.get` (and may therefore be `None`) are
`Option String`. -/

/-- Embedding of `build_affinity_spec(paasta_pool)`. -/
def build_affinity_spec (paasta_pool : Option String) : Jx :=
  .obj [("nodeAffinity", .obj
    [("requiredDuringSchedulingIgnoredDuringExecution", .obj
      [("nodeSelectorTerms", .arr
        [.obj [("matchExpressions", .arr
          [.obj [("key", .str "yelp.com/pool"),
                 ("operator", .str "In"),
                 ("values", .arr [jopt paasta_pool])]])]])])])]

/-- Embedding of `build_extra_labels(paasta_pool, paasta_cluster)`; kept as
an association list because `build_tablet_pool_config` later assigns the
extra `tablet_type` key into it. -/
def build_extra_labels (paasta_pool paasta_cluster : Option String) :
    List (String × Jx) :=
  [("yelp.com/owner", .str "dre_mysql_working_hours"),
   ("paasta.yelp.com/cluster", jopt paasta_cluster),
   ("paasta.yelp.com/pool", jopt paasta_pool)]

/-- Embedding of `build_extra_env(paasta_cluster)`. -/
def build_extra_env (paasta_cluster : Option String) : List Jx :=
  [.obj [("name", .str "PAASTA_POD_IP"),
         ("valueFrom", .obj [("fieldRef", .obj
           [("fieldPath", .str "status.podIP")])])],
   .obj [("name", .str "PAASTA_CLUSTER"), ("value", jopt paasta_cluster)]]

/-- Embedding of one Python statement pattern
`if env["name"] == n: env["value"] = v` applied to one env entry. -/
def setIfName (n : String) (v : Jx) (e : Jx) : Jx :=
  match e with
  | .obj fs =>
    match dget fs "name" with
    | some (.str s) => if s = n then .obj (dset fs "value" v) else .obj fs
    | _ => .obj fs
  | e => e

/-- The f-string
`f"--topo_implementation {TOPO_IMPLEMENTATION} --topo_global_server_address ${zk_address} --topo_global_root {TOPO_GLOBAL_ROOT}"`
(note the literal `$` before the interpolated address) shared by the
dashboard and tablet builders. -/
def topology_flags_value (zk_address : Option String) : String :=
  "--topo_implementation " ++ TOPO_IMPLEMENTATION ++
  " --topo_global_server_address $" ++ pystr zk_address ++
  " --topo_global_root " ++ TOPO_GLOBAL_ROOT

/-- The f-string `f"https://vault-dre.{region}.yelpcorp.com:8200"`. -/
def vault_addr_value (region : Option String) : String :=
  "https://vault-dre." ++ pystr region ++ ".yelpcorp.com:8200"

/-- The f-string `f"/etc/vault/all_cas/acm-privateca-{region}.crt"`. -/
def vault_cacert_value (region : Option String) : String :=
  "/etc/vault/all_cas/acm-privateca-" ++ pystr region ++ ".crt"

/-- Body of `build_cell_config(cell, paasta_pool, paasta_cluster,
region)`, abstracted over the current value of the module-level blueprint
`VTGATE_EXTRA_ENV` (read once per call via `copy.deepcopy`).  The Python
code rewrites the `VAULT_ADDR` / `VAULT_CACERT` entries of the copy and
appends each entry to the `extraEnv` list built by `build_extra_env`; the
resulting value is the concatenation below. -/
def build_cell_config_tpl (vtgate_extra_env_tpl : List Jx) (cell : String)
    (paasta_pool paasta_cluster region : Option String) : Jx :=
  .obj [("name", .str cell),
        ("gateway", .obj
          [("extraFlags", .obj
             [("mysql_auth_server_impl", .str "vault"),
              ("mysql_auth_vault_addr", .str (vault_addr_value region)),
              ("mysql_auth_vault_path",
               .str "secrets/vitess/vt-gate/vttablet_credentials.json"),
              ("mysql_auth_vault_tls_ca", .str (vault_cacert_value region)),
              ("mysql_auth_vault_ttl", .str "60s")]),
           ("affinity", build_affinity_spec paasta_pool),
           ("extraLabels", .obj (build_extra_labels paasta_pool paasta_cluster)),
           ("extraEnv", .arr (build_extra_env paasta_cluster ++
             vtgate_extra_env_tpl.map (fun e =>
               setIfName "VAULT_CACERT" (.str (vault_cacert_value region))
                 (setIfName "VAULT_ADDR" (.str (vault_addr_value region)) e)))),
           ("replicas", .num 1),
           ("resources", .obj
             [("requests", .obj [("cpu", .str "100m"),
                                 ("memory", .str "256Mi")]),
              ("limits", .obj [("memory", .str "256Mi")])])])]

/-- Embedding of `build_cell_config` against the module-level blueprints. -/
def build_cell_config (cell : String)
    (paasta_pool paasta_cluster region : Option String) : Jx :=
  build_cell_config_tpl VTGATE_EXTRA_ENV cell paasta_pool paasta_cluster region

/-- Body of `build_vitess_dashboard_config(cells, paasta_pool,
paasta_cluster, zk_address)`, abstracted over the current values of the
module-level blueprints `VTCTLD_EXTRA_ENV` (read via `copy.deepcopy`)
and `VTCTLD_EXTRA_FLAGS` (attached by reference, i.e. by value here).
The Python code rewrites the `TOPOLOGY_FLAGS` entry of the copy and
appends each entry to the `extraEnv` list. -/
def build_vitess_dashboard_config_tpl (vtctld_extra_env_tpl : List Jx)
    (vtctld_extra_flags_tpl : List (String × String)) (cells : List String)
    (paasta_pool paasta_cluster zk_address : Option String) : Jx :=
  .obj [("cells", .arr (cells.map .str)),
        ("affinity", build_affinity_spec paasta_pool),
        ("extraLabels", .obj (build_extra_labels paasta_pool paasta_cluster)),
        ("extraEnv", .arr (build_extra_env paasta_cluster ++
          vtctld_extra_env_tpl.map
            (setIfName "TOPOLOGY_FLAGS" (.str (topology_flags_value zk_address))))),
        ("extraFlags", flagsJ vtctld_extra_flags_tpl),
        ("replicas", .num 1),
        ("resources", .obj
          [("requests", .obj [("cpu", .str "100m"),
                              ("memory", .str "128Mi")]),
           ("limits", .obj [("memory", .str "128Mi")])])]

/-- Embedding of `build_vitess_dashboard_config` against the module-level
blueprints. -/
def build_vitess_dashboard_config (cells : List String)
    (paasta_pool paasta_cluster zk_address : Option String) : Jx :=
  build_vitess_dashboard_config_tpl VTCTLD_EXTRA_ENV VTCTLD_EXTRA_FLAGS
    cells paasta_pool paasta_cluster zk_address

/-- Body of `build_vt_admin_config(cells, paasta_pool, paasta_cluster)`,
abstracted over the current value of the module-level blueprint
`VTADMIN_EXTRA_FLAGS` (attached by reference, i.e. by value here). -/
def build_vt_admin_config_tpl (vtadmin_extra_flags_tpl : List (String × String))
    (cells : List String)
    (paasta_pool paasta_cluster : Option String) : Jx :=
  .obj [("cells", .arr (cells.map .str)),
        ("apiAddresses", .arr [.str "http://localhost:15000"]),
        ("affinity", build_affinity_spec paasta_pool),
        ("extraLabels", .obj (build_extra_labels paasta_pool paasta_cluster)),
        ("extraFlags", flagsJ vtadmin_extra_flags_tpl),
        ("extraEnv", .arr (build_extra_env paasta_cluster)),
        ("replicas", .num 1),
        ("readOnly", .bool false),
        ("apiResources", .obj
          [("requests", .obj [("cpu", .str "100m"),
                              ("memory", .str "128Mi")]),
           ("limits", .obj [("memory", .str "128Mi")])]),
        ("webResources", .obj
          [("requests", .obj [("cpu", .str "100m"),
                              ("memory", .str "128Mi")]),
           ("limits", .obj [("memory", .str "128Mi")])])]

/-- Embedding of `build_vt_admin_config` against the module-level
blueprints. -/
def build_vt_admin_config (cells : List String)
    (paasta_pool paasta_cluster : Option String) : Jx :=
  build_vt_admin_config_tpl VTADMIN_EXTRA_FLAGS cells paasta_pool paasta_cluster

/-- Body of `build_tablet_pool_config`, abstracted over the current
values of the module-level blueprints `VTTABLET_EXTRA_FLAGS` (read via
`.copy()`) and `VTTABLET_EXTRA_ENV` (read via `copy.deepcopy`).  The
Python function performs eleven dict assignments on the flags copy
(`dset` chain below, in source order), computes the datastore type tag
from the tablet role, builds the config dict, then rewrites the matching
entries of the env copy and appends each entry to `extraEnv`, and
finally assigns the `tablet_type` key into `extraLabels`; the literal
below is the resulting value. -/
def build_tablet_pool_config_tpl
    (vttablet_extra_flags_tpl : List (String × String))
    (vttablet_extra_env_tpl : List Jx)
    (cell : String) (db_name keyspace : String)
    (port : Int) (paasta_pool paasta_cluster zk_address : Option String)
    (throttle_query_table throttle_metrics_threshold : String)
    (tablet_type : String) (region : Option String) : Jx :=
  let vttablet_extra_flags :=
    dset (dset (dset (dset (dset (dset (dset (dset (dset (dset (dset
      vttablet_extra_flags_tpl
      "throttle_metrics_query"
      ("select max_replication_delay from max_mysql_replication_delay." ++
        throttle_query_table ++ ";"))
      "throttle_metrics_threshold" throttle_metrics_threshold)
      "enforce-tableacl-config" "true")
      "table-acl-config"
      ("/etc/vitess_keyspace_acls/acls_for_" ++ db_name ++ ".json"))
      "table-acl-config-reload-interval" "60s")
      "queryserver-config-strict-table-acl" "true")
      "db-credentials-server" "vault")
      "db-credentials-vault-addr" (vault_addr_value region))
      "db-credentials-vault-path"
      "secrets/vitess/vt-tablet/vttablet_credentials.json")
      "db-credentials-vault-tls-ca" (vault_cacert_value region))
      "db-credentials-vault-ttl" "60s"
  let ttype : String :=
    if tablet_type = "primary" then "externalmaster" else "externalreplica"
  .obj [("cell", .str cell),
        ("name", .str (db_name ++ "_" ++ tablet_type)),
        ("type", .str ttype),
        ("affinity", build_affinity_spec paasta_pool),
        ("extraLabels", .obj (dset (build_extra_labels paasta_pool paasta_cluster)
          "tablet_type" (.str (db_name ++ "_" ++ tablet_type)))),
        ("extraEnv", .arr (build_extra_env paasta_cluster ++
          vttablet_extra_env_tpl.map (fun e =>
            setIfName "VAULT_CACERT" (.str (vault_cacert_value region))
            (setIfName "VAULT_ADDR" (.str (vault_addr_value region))
            (setIfName "KEYSPACE" (.str keyspace)
            (setIfName "DB" (.str db_name)
            (setIfName "CELL_TOPOLOGY_SERVERS" (jopt zk_address)
            (setIfName "TOPOLOGY_FLAGS"
              (.str (topology_flags_value zk_address)) e)))))))),
        ("extraVolumeMounts", .arr
          [.obj [("mountPath", .str "/etc/vault/all_cas"),
                 ("name", .str "vault-secrets"),
                 ("readOnly", .bool true)],
           .obj [("mountPath", .str "/etc/vitess_keyspace_acls"),
                 ("name", .str "acls"),
                 ("readOnly", .bool true)],
           .obj [("mountPath", .str "etc/credentials.yaml"),
                 ("name", .str "vttablet-fake-credentials"),
                 ("readOnly", .bool true)],
           .obj [("mountPath", .str "/etc/init_db.sql"),
                 ("name", .str "keyspace-fake-init-script"),
                 ("readOnly", .bool true)]]),
        ("extraVolumes", .arr
          [.obj [("name", .str "vault-secrets"),
                 ("hostPath", .obj [("path", .str "/nail/etc/vault/all_cas")])],
           .obj [("name", .str "acls"),
                 ("hostPath", .obj
                   [("path", .str "/nail/srv/configs/vitess_keyspace_acls")])],
           .obj [("name", .str "vttablet-fake-credentials"),
                 ("hostPath", .obj [("path", .str "/dev/null")])],
           .obj [("name", .str "keyspace-fake-init-script"),
                 ("hostPath", .obj [("path", .str "/dev/null")])]]),
        ("replicas", .num 1),
        ("vttablet", .obj
          [("extraFlags", flagsJ vttablet_extra_flags),
           ("resources", .obj
             [("requests", .obj [("cpu", .str "100m"),
                                 ("memory", .str "256Mi")]),
              ("limits", .obj [("memory", .str "256Mi")])])]),
        ("externalDatastore", .obj
          [("database", .str db_name),
           ("host", .str SOURCE_DB_HOST),
           ("port", .num port),
           ("user", .str "vt_app"),
           ("credentialsSecret", .obj
             [("key", .str "/etc/credentials.yaml"),
              ("volumeName", .str "vttablet-fake-credentials")])]),
        ("dataVolumeClaimTemplate", .obj
          [("accessModes", .arr [.str "ReadWriteOnce"]),
           ("resources", .obj [("requests", .obj [("storage", .str "10Gi")])]),
           ("storageClassName", .str "ebs-csi-gp3")])]

/-- Embedding of `build_tablet_pool_config` against the module-level
blueprints. -/
def build_tablet_pool_config (cell : String) (db_name keyspace : String)
    (port : Int) (paasta_pool paasta_cluster zk_address : Option String)
    (throttle_query_table throttle_metrics_threshold : String)
    (tablet_type : String) (region : Option String) : Jx :=
  build_tablet_pool_config_tpl VTTABLET_EXTRA_FLAGS VTTABLET_EXTRA_ENV
    cell db_name keyspace port paasta_pool paasta_cluster zk_address
    throttle_query_table throttle_metrics_threshold tablet_type region

/-- A keyspace descriptor from the instance config: an entry of the
`keyspaces` list, a dict with keys `keyspace` and `cluster`. -/
structure KeyspaceConfig where
  keyspace : String
  cluster : String

/-- Port mappings returned by the external collaborator
`load_system_paasta_config().get_mysql_port_mappings()`: a dict from
cluster name to a dict from tablet role to port. -/
def PortMappings : Type := List (String × List (String × Int))

/-- Throttle policy derivation inlined in `build_keyspaces_config`
(lines 479-489): role `migration` uses table
`migration_replication_delay` with threshold `"7200"`, every other role
uses `read_replication_delay` with threshold `"30"` for cluster names
starting with `refresh` or `sanitized` and `"3"` otherwise. -/
def throttle_params (tablet_type cluster : String) : String × String :=
  if tablet_type = "migration" then
    ("migration_replication_delay", "7200")
  else
    ("read_replication_delay",
     if startswith cluster "refresh" || startswith cluster "sanitized"
     then "30" else "3")

/-- The inner fan-out loop of `build_keyspaces_config` for one keyspace
once the cluster's role-to-port dict `m` is in hand: iterate over
`TABLET_TYPES` in order; a role absent from `m` is skipped (`continue`),
a present role extends the pool list with one spec per cell, in cell
order. -/
def tablet_pools_loop (m : List (String × Int)) (cells : List String)
    (paasta_pool paasta_cluster zk_address region : Option String)
    (kc : KeyspaceConfig) : List Jx :=
  TABLET_TYPES.foldl (fun pools tablet_type =>
    match dget m tablet_type with
    | none => pools
    | some port =>
      let tp := throttle_params tablet_type kc.cluster
      pools ++ cells.map (fun cell =>
        build_tablet_pool_config cell kc.keyspace kc.keyspace port
          paasta_pool paasta_cluster zk_address tp.1 tp.2 tablet_type region))
    []

/-- The keyspace entry dict appended to the config list for each keyspace
(lines 510-530). -/
def keyspace_entry (keyspace : String) (tablet_pools : List Jx) : Jx :=
  .obj [("name", .str keyspace),
        ("durabilityPolicy", .str "none"),
        ("turndownPolicy", .str "Immediate"),
        ("partitionings", .arr
          [.obj [("equal", .obj
            [("parts", .num 1),
             ("shardTemplate", .obj
               [("databaseInitScriptSecret", .obj
                  [("volumeName", .str "keyspace-fake-init-script"),
                   ("key", .str "/etc/init_db.sql")]),
                ("tabletPools", .arr tablet_pools)])])]])]

/-- Embedding of `build_keyspaces_config`.  `port_mappings` is the value
the external collaborator returns (the Python code re-queries it for each
keyspace; the collaborator is deterministic within one synthesis call, so
every query returns this value — see `build_keyspaces_config_counted` for
the query count).  `none` models the `KeyError` raised by
`mysql_port_mappings[cluster]` when a keyspace's cluster is absent from
the mapping; the subscript occurs on the first of the two role
iterations, since `TABLET_TYPES` is nonempty, so the whole call aborts
with nothing produced. -/
def build_keyspaces_config (port_mappings : PortMappings)
    (cells : List String) (keyspaces : List KeyspaceConfig)
    (paasta_pool paasta_cluster zk_address region : Option String) :
    Option (List Jx) :=
  match keyspaces with
  | [] => some []
  | kc :: rest =>
    match dget port_mappings kc.cluster with
    | none => none
    | some m =>
      match build_keyspaces_config port_mappings cells rest
          paasta_pool paasta_cluster zk_address region with
      | none => none
      | some restCfg =>
        some (keyspace_entry kc.keyspace
          (tablet_pools_loop m cells paasta_pool paasta_cluster
            zk_address region kc) :: restCfg)

/-- Instrumented variant of `build_keyspaces_config` that also counts how
many times the external port-mapping collaborator
`load_system_paasta_config().get_mysql_port_mappings()` is evaluated:
the call sits inside the `for keyspace_config in keyspaces` loop
(line 470), so it runs once per keyspace iteration reached before any
`KeyError` abort.  The first component agrees with
`build_keyspaces_config` (`build_keyspaces_config_counted_fst`). -/
def build_keyspaces_config_counted (port_mappings : PortMappings)
    (cells : List String) (keyspaces : List KeyspaceConfig)
    (paasta_pool paasta_cluster zk_address region : Option String) :
    Option (List Jx) × Nat :=
  match keyspaces with
  | [] => (some [], 0)
  | kc :: rest =>
    match dget port_mappings kc.cluster with
    | none => (none, 1)
    | some m =>
      match build_keyspaces_config_counted port_mappings cells rest
          paasta_pool paasta_cluster zk_address region with
      | (none, n) => (none, n + 1)
      | (some restCfg, n) =>
        (some (keyspace_entry kc.keyspace
          (tablet_pools_loop m cells paasta_pool paasta_cluster
            zk_address region kc) :: restCfg), n + 1)

/-- The instance description consumed by
`generate_vitess_instance_config`: a dict read with `.get`, so every
field may be absent (`none`).  `cpus` and `mem` are arbitrary scalars;
the remaining scalar fields are strings per the input contract. -/
structure InstanceConfig where
  cpus : Option Jx
  mem : Option Jx
  deploy_group : Option String
  zk_address : Option String
  paasta_pool : Option String
  paasta_cluster : Option String
  cells : Option (List String)
  keyspaces : Option (List KeyspaceConfig)
  region : Option String

/-- The output dict literal of `generate_vitess_instance_config`
(lines 606-649), given the already-built cell, dashboard, admin and
keyspace sub-trees. -/
def assemble_vitess_instance_config (ic : InstanceConfig)
    (cell_configs : List Jx) (dashboard vtadmin : Jx)
    (keyspaces_config : List Jx) : Jx :=
  .obj [("namespace", .str "paasta-vitessclusters"),
        ("cpus", joptJ ic.cpus),
        ("mem", joptJ ic.mem),
        ("min_instances", .num 1),
        ("max_instances", .num 1),
        ("deploy_group", jopt ic.deploy_group),
        ("autoscaling", .obj [("setpoint", .flo (7/10))]),
        ("env", .obj
          [("OPERATOR_NAME", .str "vitess-operator"),
           ("POD_NAME", .str "vitess-k8s"),
           ("PS_OPERATOR_POD_NAME", .str "vitess-k8s"),
           ("PS_OPERATOR_POD_NAMESPACE", .str "paasta-vitessclusters"),
           ("WATCH_NAMESPACE", .str "paasta-vitessclusters")]),
        ("healthcheck_grace_period_seconds", .num 60),
        ("healthcheck_mode", .str "cmd"),
        ("healthcheck_cmd", .str "true"),
        ("images", .obj
          [("vtctld", .str VTCTLD_IMAGE),
           ("vtadmin", .str VT_ADMIN_IMAGE),
           ("vtgate", .str VT_GATE_IMAGE),
           ("vttablet", .str VT_TABLET_IMAGE)]),
        ("globalLockserver", .obj
          [("external", .obj
            [("implementation", .str TOPO_IMPLEMENTATION),
             ("address", jopt ic.zk_address),
             ("rootPath", .str TOPO_GLOBAL_ROOT)])]),
        ("cells", .arr cell_configs),
        ("vitessDashboard", dashboard),
        ("vtadmin", vtadmin),
        ("keyspaces", .arr keyspaces_config),
        ("updateStrategy", .obj [("type", .str "Immediate")])]

/-- Embedding of `generate_vitess_instance_config`.  A missing scalar
field propagates `None` into the output; a missing `cells` or
`keyspaces` raises `TypeError` when the list is iterated (the `cells`
list comprehension at line 637 runs before `build_keyspaces_config` at
line 645), modelled by `none`; a `KeyError` inside
`build_keyspaces_config` likewise aborts the call. -/
def generate_vitess_instance_config (port_mappings : PortMappings)
    (ic : InstanceConfig) : Option Jx :=
  match ic.cells with
  | none => none
  | some cells =>
    match ic.keyspaces with
    | none => none
    | some keyspaces =>
      match build_keyspaces_config port_mappings cells keyspaces
          ic.paasta_pool ic.paasta_cluster ic.zk_address ic.region with
      | none => none
      | some ksCfg =>
        some (assemble_vitess_instance_config ic
          (cells.map (fun cell =>
            build_cell_config cell ic.paasta_pool ic.paasta_cluster ic.region))
          (build_vitess_dashboard_config cells ic.paasta_pool
            ic.paasta_cluster ic.zk_address)
          (build_vt_admin_config cells ic.paasta_pool ic.paasta_cluster)
          ksCfg)

/-- Instrumented variant of `generate_vitess_instance_config` that also
returns how many times the port-mapping collaborator is queried during
the synthesis call.  The only queries happen inside
`build_keyspaces_config`, which `generate_vitess_instance_config` invokes
exactly once; when `cells` or `keyspaces` is missing the `TypeError`
fires before any query. -/
def generate_vitess_instance_config_counted (port_mappings : PortMappings)
    (ic : InstanceConfig) : Option Jx × Nat :=
  match ic.cells with
  | none => (none, 0)
  | some cells =>
    match ic.keyspaces with
    | none => (none, 0)
    | some keyspaces =>
      match build_keyspaces_config_counted port_mappings cells keyspaces
          ic.paasta_pool ic.paasta_cluster ic.zk_address ic.region with
      | (none, n) => (none, n)
      | (some ksCfg, n) =>
        (some (assemble_vitess_instance_config ic
          (cells.map (fun cell =>
            build_cell_config cell ic.paasta_pool ic.paasta_cluster ic.region))
          (build_vitess_dashboard_config cells ic.paasta_pool
            ic.paasta_cluster ic.zk_address)
          (build_vt_admin_config cells ic.paasta_pool ic.paasta_cluster)
          ksCfg), n)

/-! State-threading model of the process-wide template library.

The Python module holds its blueprints (`VTCTLD_EXTRA_ENV`,
`VTTABLET_EXTRA_ENV`, `VTGATE_EXTRA_ENV` and the three flag dicts) as
module-level mutable objects shared by every synthesis call.  To reason
about mutation of that shared state, each builder is re-expressed as a
state transformer over `TemplateLib`, the current contents of those six
objects: every Python read of a blueprint reads the corresponding field,
and a Python statement mutating a blueprint in place would have to
return an updated library.  Tracing the source: `build_cell_config`,
`build_vitess_dashboard_config` and `build_tablet_pool_config` only ever
mutate `copy.deepcopy` / `.copy()` copies of the blueprints (lines 250,
279, 337, 431), and the flag dicts attached by reference are never
written through, so no builder writes the library. -/
structure TemplateLib where
  vtctld_extra_env : List Jx
  vttablet_extra_env : List Jx
  vtgate_extra_env : List Jx
  vtadmin_extra_flags : List (String × String)
  vtctld_extra_flags : List (String × String)
  vttablet_extra_flags : List (String × String)

/-- Contents of the template library when the module is loaded. -/
def module_template_lib : TemplateLib :=
  { vtctld_extra_env := VTCTLD_EXTRA_ENV
    vttablet_extra_env := VTTABLET_EXTRA_ENV
    vtgate_extra_env := VTGATE_EXTRA_ENV
    vtadmin_extra_flags := VTADMIN_EXTRA_FLAGS
    vtctld_extra_flags := VTCTLD_EXTRA_FLAGS
    vttablet_extra_flags := VTTABLET_EXTRA_FLAGS }

/-- State-threaded `build_cell_config`: reads `VTGATE_EXTRA_ENV` via
`copy.deepcopy` and mutates only the copy. -/
def build_cell_config_st (lib : TemplateLib) (cell : String)
    (paasta_pool paasta_cluster region : Option String) : Jx × TemplateLib :=
  (build_cell_config_tpl lib.vtgate_extra_env cell
    paasta_pool paasta_cluster region, lib)

/-- State-threaded `build_vitess_dashboard_config`: reads
`VTCTLD_EXTRA_ENV` via `copy.deepcopy` (mutating only the copy) and
attaches `VTCTLD_EXTRA_FLAGS` without writing it. -/
def build_vitess_dashboard_config_st (lib : TemplateLib)
    (cells : List String)
    (paasta_pool paasta_cluster zk_address : Option String) :
    Jx × TemplateLib :=
  (build_vitess_dashboard_config_tpl lib.vtctld_extra_env
    lib.vtctld_extra_flags cells paasta_pool paasta_cluster zk_address, lib)

/-- State-threaded `build_vt_admin_config`: attaches
`VTADMIN_EXTRA_FLAGS` without writing it. -/
def build_vt_admin_config_st (lib : TemplateLib) (cells : List String)
    (paasta_pool paasta_cluster : Option String) : Jx × TemplateLib :=
  (build_vt_admin_config_tpl lib.vtadmin_extra_flags cells
    paasta_pool paasta_cluster, lib)

/-- State-threaded `build_tablet_pool_config`: reads
`VTTABLET_EXTRA_FLAGS` via `.copy()` and `VTTABLET_EXTRA_ENV` via
`copy.deepcopy`, mutating only the copies. -/
def build_tablet_pool_config_st (lib : TemplateLib)
    (cell : String) (db_name keyspace : String)
    (port : Int) (paasta_pool paasta_cluster zk_address : Option String)
    (throttle_query_table throttle_metrics_threshold : String)
    (tablet_type : String) (region : Option String) : Jx × TemplateLib :=
  (build_tablet_pool_config_tpl lib.vttablet_extra_flags
    lib.vttablet_extra_env cell db_name keyspace port paasta_pool
    paasta_cluster zk_address throttle_query_table
    throttle_metrics_threshold tablet_type region, lib)

/-- State-threaded cell fan-out of `generate_vitess_instance_config`
(the `cells` list comprehension, one `build_cell_config` call per cell,
in order). -/
def build_cells_st (lib : TemplateLib) (cells : List String)
    (paasta_pool paasta_cluster region : Option String) :
    List Jx × TemplateLib :=
  cells.foldl (fun acc cell =>
    let r := build_cell_config_st acc.2 cell paasta_pool paasta_cluster region
    (acc.1 ++ [r.1], r.2)) ([], lib)

/-- State-threaded per-cell tablet-pool fan-out (the list comprehension
at lines 492-507, one `build_tablet_pool_config` call per cell). -/
def tablet_pools_cells_st (lib : TemplateLib) (cells : List String)
    (kc : KeyspaceConfig) (port : Int)
    (paasta_pool paasta_cluster zk_address region : Option String)
    (tablet_type : String) : List Jx × TemplateLib :=
  cells.foldl (fun acc cell =>
    let tp := throttle_params tablet_type kc.cluster
    let r := build_tablet_pool_config_st acc.2 cell kc.keyspace kc.keyspace
      port paasta_pool paasta_cluster zk_address tp.1 tp.2 tablet_type region
    (acc.1 ++ [r.1], r.2)) ([], lib)

/-- State-threaded role loop of `build_keyspaces_config`. -/
def tablet_pools_loop_st (lib : TemplateLib) (m : List (String × Int))
    (cells : List String)
    (paasta_pool paasta_cluster zk_address region : Option String)
    (kc : KeyspaceConfig) : List Jx × TemplateLib :=
  TABLET_TYPES.foldl (fun acc tablet_type =>
    match dget m tablet_type with
    | none => acc
    | some port =>
      let r := tablet_pools_cells_st acc.2 cells kc port paasta_pool
        paasta_cluster zk_address region tablet_type
      (acc.1 ++ r.1, r.2)) ([], lib)

/-- State-threaded `build_keyspaces_config`. -/
def build_keyspaces_config_st (lib : TemplateLib)
    (port_mappings : PortMappings) (cells : List String)
    (keyspaces : List KeyspaceConfig)
    (paasta_pool paasta_cluster zk_address region : Option String) :
    Option (List Jx) × TemplateLib :=
  match keyspaces with
  | [] => (some [], lib)
  | kc :: rest =>
    match dget port_mappings kc.cluster with
    | none => (none, lib)
    | some m =>
      let pools := tablet_pools_loop_st lib m cells paasta_pool
        paasta_cluster zk_address region kc
      match build_keyspaces_config_st pools.2 port_mappings cells rest
          paasta_pool paasta_cluster zk_address region with
      | (none, lib') => (none, lib')
      | (some restCfg, lib') =>
        (some (keyspace_entry kc.keyspace pools.1 :: restCfg), lib')

/-- State-threaded `generate_vitess_instance_config`: the builders run in
the evaluation order of the Python dict literal (cells, dashboard,
admin, keyspaces). -/
def generate_vitess_instance_config_st (lib : TemplateLib)
    (port_mappings : PortMappings) (ic : InstanceConfig) :
    Option Jx × TemplateLib :=
  match ic.cells with
  | none => (none, lib)
  | some cells =>
    match ic.keyspaces with
    | none =>
      let cc := build_cells_st lib cells ic.paasta_pool ic.paasta_cluster
        ic.region
      let dash := build_vitess_dashboard_config_st cc.2 cells ic.paasta_pool
        ic.paasta_cluster ic.zk_address
      let adm := build_vt_admin_config_st dash.2 cells ic.paasta_pool
        ic.paasta_cluster
      (none, adm.2)
    | some keyspaces =>
      let cc := build_cells_st lib cells ic.paasta_pool ic.paasta_cluster
        ic.region
      let dash := build_vitess_dashboard_config_st cc.2 cells ic.paasta_pool
        ic.paasta_cluster ic.zk_address
      let adm := build_vt_admin_config_st dash.2 cells ic.paasta_pool
        ic.paasta_cluster
      match build_keyspaces_config_st adm.2 port_mappings cells keyspaces
          ic.paasta_pool ic.paasta_cluster ic.zk_address ic.region with
      | (none, lib') => (none, lib')
      | (some ksCfg, lib') =>
        (some (assemble_vitess_instance_config ic cc.1 dash.1 adm.1 ksCfg),
         lib')

/-! Accessors used to state the properties. -/

/-- Extracting the tablet-pool list from a keyspace entry
(`partitionings[0].equal.shardTemplate.tabletPools`). -/
def get_tablet_pools (ks : Jx) : List Jx :=
  match jget ks "partitionings" with
  | some (.arr [p]) =>
    match jget p "equal" with
    | some eq =>
      match jget eq "shardTemplate" with
      | some st =>
        match jget st "tabletPools" with
        | some (.arr pools) => pools
        | _ => []
      | _ => []
    | _ => []
  | _ => []

/-- Predicate selecting tablet-pool specs whose `name` field is the given
string. -/
def pool_has_name (nm : String) (p : Jx) : Bool :=
  match jget p "name" with
  | some (.str s) => s = nm
  | _ => false

/-- Value of the env entry with the given `name` in an `extraEnv` list:
values of all matching entries, in order. -/
def env_values (es : List Jx) (n : String) : List (Option Jx) :=
  (es.filter (fun e => match jget e "name" with
    | some (.str s) => s = n
    | _ => false)).map (fun e => jget e "value")

/-- The `extraEnv` list of a spec. -/
def get_extra_env (p : Jx) : List Jx :=
  match jget p "extraEnv" with
  | some (.arr es) => es
  | _ => []

/-- The `vttablet.extraFlags` object of a tablet-pool spec. -/
def get_vttablet_flag (p : Jx) (flag : String) : Option Jx :=
  match jget p "vttablet" with
  | some vt =>
    match jget vt "extraFlags" with
    | some fl => jget fl flag
    | _ => none
  | _ => none

/-- The `keyspaces` list of a synthesized instance config. -/
def get_keyspaces (cfg : Jx) : List Jx :=
  match jget cfg "keyspaces" with
  | some (.arr ks) => ks
  | _ => []

/-- Specs generated for a single role of one keyspace: empty when the
role is absent from the cluster's port dict, otherwise one spec per cell
in cell order (the list comprehension at lines 492-507). -/
def role_pool_specs (m : List (String × Int)) (cells : List String)
    (paasta_pool paasta_cluster zk_address region : Option String)
    (kc : KeyspaceConfig) (tablet_type : String) : List Jx :=
  match dget m tablet_type with
  | none => []
  | some port =>
    let tp := throttle_params tablet_type kc.cluster
    cells.map (fun cell =>
      build_tablet_pool_config cell kc.keyspace kc.keyspace port
        paasta_pool paasta_cluster zk_address tp.1 tp.2 tablet_type region)

/-- The `tablet_type` entry of a spec's `extraLabels`. -/
def get_extra_label (p : Jx) (k : String) : Option Jx :=
  match jget p "extraLabels" with
  | some l => jget l k
  | _ => none

/-- The `globalLockserver.external.address` of a synthesized instance
config. -/
def get_lockserver_address (cfg : Jx) : Option Jx :=
  match jget cfg "globalLockserver" with
  | some gl =>
    match jget gl "external" with
    | some e => jget e "address"
    | _ => none
  | _ => none

/-- The pool values of the vtadmin affinity
(`vtadmin.affinity.nodeAffinity...matchExpressions[0].values`). -/
def get_vtadmin_pool_values (cfg : Jx) : Option Jx :=
  match jget cfg "vtadmin" with
  | some a =>
    match jget a "affinity" with
    | some af =>
      match jget af "nodeAffinity" with
      | some na =>
        match jget na "requiredDuringSchedulingIgnoredDuringExecution" with
        | some req =>
          match jget req "nodeSelectorTerms" with
          | some (.arr [t]) =>
            match jget t "matchExpressions" with
            | some (.arr [e]) => jget e "values"
            | _ => none
          | _ => none
        | _ => none
      | _ => none
    | _ => none
  | _ => none

/-- Values of the named env entries in the vtadmin spec's `extraEnv`. -/
def get_vtadmin_env (cfg : Jx) (n : String) : List (Option Jx) :=
  match jget cfg "vtadmin" with
  | some a => env_values (get_extra_env a) n
  | _ => []

/-! Concrete inputs used by witnesses and counterexamples. -/

/-- Port mapping exposing only role `primary` for cluster `main1`. -/
def pm_main : PortMappings := [("main1", [("primary", 3306)])]

/-- Instance description of the end-to-end scenario: one cell `cellA`,
one keyspace `orders` on cluster `main1`, region `uswest1-devc`. -/
def ic_orders : InstanceConfig :=
  { cpus := some (.num 1)
    mem := some (.num 1024)
    deploy_group := some "dev.everything"
    zk_address := some "zk.example:2181"
    paasta_pool := some "default"
    paasta_cluster := some "uswest1-devc"
    cells := some ["cellA"]
    keyspaces := some [⟨"orders", "main1"⟩]
    region := some "uswest1-devc" }

/-- Port mapping for two clusters. -/
def pm_two : PortMappings :=
  [("main1", [("primary", 3306)]),
   ("main2", [("primary", 3307), ("migration", 3308)])]

/-- Instance description with two keyspaces. -/
def ic_two : InstanceConfig :=
  { ic_orders with
    keyspaces := some [⟨"orders", "main1"⟩, ⟨"billing", "main2"⟩] }

/-! Helper lemmas. -/

/-- The role loop of `build_keyspaces_config` produces the primary specs
followed by the migration specs, in that role order. -/
theorem tablet_pools_loop_eq (m : List (String × Int)) (cells : List String)
    (pool pc zk region : Option String) (kc : KeyspaceConfig) :
    tablet_pools_loop m cells pool pc zk region kc =
      role_pool_specs m cells pool pc zk region kc "primary" ++
      role_pool_specs m cells pool pc zk region kc "migration" := by
  unfold tablet_pools_loop TABLET_TYPES role_pool_specs
  cases h1 : dget m "primary" <;> cases h2 : dget m "migration" <;>
    simp [List.foldl, h1, h2]

/-- When every keyspace's cluster is present in the port mapping,
`build_keyspaces_config` succeeds with one entry per keyspace, the i-th
entry being the keyspace entry for the i-th keyspace with its role-loop
pools. -/
theorem build_keyspaces_config_some (pm : PortMappings) (cells : List String)
    (keyspaces : List KeyspaceConfig) (pool pc zk region : Option String)
    (h : ∀ kc ∈ keyspaces, (dget pm kc.cluster).isSome) :
    ∃ out, build_keyspaces_config pm cells keyspaces pool pc zk region = some out ∧
      out.length = keyspaces.length ∧
      ∀ (i : Nat) (kc : KeyspaceConfig) (m : List (String × Int)),
        keyspaces[i]? = some kc → dget pm kc.cluster = some m →
        out[i]? = some (keyspace_entry kc.keyspace
          (tablet_pools_loop m cells pool pc zk region kc)) := by
  induction keyspaces with
  | nil => exact ⟨[], rfl, rfl, by intro i kc m hkc; simp at hkc⟩
  | cons kc0 rest ih =>
    have h0 : (dget pm kc0.cluster).isSome := h kc0 (by simp)
    obtain ⟨m0, hm0⟩ := Option.isSome_iff_exists.mp h0
    obtain ⟨out, hout, hlen, hidx⟩ := ih (fun kc hkc => h kc (by simp [hkc]))
    refine ⟨keyspace_entry kc0.keyspace
      (tablet_pools_loop m0 cells pool pc zk region kc0) :: out, ?_, ?_, ?_⟩
    · unfold build_keyspaces_config
      rw [hm0, hout]
    · simp [hlen]
    · intro i kc m hkc hm
      cases i with
      | zero =>
        simp at hkc
        subst hkc
        rw [hm0] at hm
        cases hm
        simp
      | succ j =>
        simp at hkc ⊢
        exact hidx j kc m hkc hm

/-- The `name` field of a generated tablet-pool spec as a boolean test. -/
theorem pool_has_name_build (cell db ks : String) (port : Int)
    (pool pc zk : Option String) (tqt tmt t nm : String)
    (region : Option String) :
    pool_has_name nm
      (build_tablet_pool_config cell db ks port pool pc zk tqt tmt t region) =
    decide (db ++ "_" ++ t = nm) := rfl

/-- Names generated for the two roles of one keyspace are distinct. -/
theorem name_primary_ne_migration (db : String) :
    db ++ "_" ++ "primary" ≠ db ++ "_" ++ "migration" := by
  intro h
  have hd := congrArg String.data h
  simp [String.data_append] at hd

/-- Counting the specs of a role among that role's own block: all of
them match, giving one per cell when the role is mapped. -/
theorem role_pool_specs_countP_eq (m : List (String × Int))
    (cells : List String) (pool pc zk region : Option String)
    (kc : KeyspaceConfig) (t : String) :
    (role_pool_specs m cells pool pc zk region kc t).countP
      (pool_has_name (kc.keyspace ++ "_" ++ t)) =
    if (dget m t).isSome then cells.length else 0 := by
  unfold role_pool_specs
  cases h1 : dget m t
  · simp
  · simp only [Option.isSome_some, if_true, List.countP_map]
    refine List.countP_eq_length.mpr ?_
    intro cell _
    simp [Function.comp, pool_has_name_build]

/-- Counting specs of a different name among a role's block: none match. -/
theorem role_pool_specs_countP_ne (m : List (String × Int))
    (cells : List String) (pool pc zk region : Option String)
    (kc : KeyspaceConfig) (t nm : String)
    (h : kc.keyspace ++ "_" ++ t ≠ nm) :
    (role_pool_specs m cells pool pc zk region kc t).countP
      (pool_has_name nm) = 0 := by
  unfold role_pool_specs
  cases h1 : dget m t
  · simp
  · simp only [List.countP_map]
    refine List.countP_eq_zero.mpr ?_
    intro cell _
    simp [Function.comp, pool_has_name_build, h]

/-- Per-(keyspace, role) spec count of the role loop: `len(cells)` when
the role is mapped for the keyspace's cluster, zero otherwise. -/
theorem tablet_pools_loop_countP (m : List (String × Int))
    (cells : List String) (pool pc zk region : Option String)
    (kc : KeyspaceConfig) (role : String) (hrole : role ∈ TABLET_TYPES) :
    (tablet_pools_loop m cells pool pc zk region kc).countP
      (pool_has_name (kc.keyspace ++ "_" ++ role)) =
    if (dget m role).isSome then cells.length else 0 := by
  rw [tablet_pools_loop_eq, List.countP_append]
  have hr : role = "primary" ∨ role = "migration" := by
    simpa [TABLET_TYPES] using hrole
  rcases hr with rfl | rfl
  · rw [role_pool_specs_countP_eq,
      role_pool_specs_countP_ne m cells pool pc zk region kc "migration" _
        (Ne.symm (name_primary_ne_migration kc.keyspace))]
    simp
  · rw [role_pool_specs_countP_ne m cells pool pc zk region kc "primary" _
        (name_primary_ne_migration kc.keyspace),
      role_pool_specs_countP_eq]
    simp

/-- Round trip through the fixed keyspace entry structure. -/
theorem get_tablet_pools_keyspace_entry (k : String) (pools : List Jx) :
    get_tablet_pools (keyspace_entry k pools) = pools := rfl

/-! Claim theorems. -/

/-- C1: for every keyspace descriptor and every tablet role in the fixed
ordered set {primary, migration}, when every keyspace's cluster is
present in the port mapping (otherwise the whole call aborts with a
KeyError), `build_keyspaces_config` produces exactly `len(cells)`
tablet-pool specs for a (keyspace, role) pair whose role is present in
the cluster's port dict, and zero specs for a pair whose role is
absent. -/
theorem fanout_completeness (pm : PortMappings) (cells : List String)
    (keyspaces : List KeyspaceConfig) (pool pc zk region : Option String)
    (h : ∀ kc ∈ keyspaces, (dget pm kc.cluster).isSome)
    (i : Nat) (kc : KeyspaceConfig) (m : List (String × Int))
    (hkc : keyspaces[i]? = some kc) (hm : dget pm kc.cluster = some m)
    (role : String) (hrole : role ∈ TABLET_TYPES) :
    ∃ out, build_keyspaces_config pm cells keyspaces pool pc zk region = some out ∧
      ∃ entry, out[i]? = some entry ∧
        (get_tablet_pools entry).countP
          (pool_has_name (kc.keyspace ++ "_" ++ role)) =
        if (dget m role).isSome then cells.length else 0 := by
  obtain ⟨out, hout, _, hidx⟩ :=
    build_keyspaces_config_some pm cells keyspaces pool pc zk region h
  refine ⟨out, hout, keyspace_entry kc.keyspace
    (tablet_pools_loop m cells pool pc zk region kc), hidx i kc m hkc hm, ?_⟩
  rw [get_tablet_pools_keyspace_entry]
  exact tablet_pools_loop_countP m cells pool pc zk region kc role hrole

/-- C1 witness: the single-keyspace scenario, role `primary` present in
the mapping, gives one spec for the one cell. -/
theorem fanout_completeness_witness :
    ∃ out, build_keyspaces_config pm_main ["cellA"] [⟨"orders", "main1"⟩]
        (some "default") (some "uswest1-devc") (some "zk.example:2181")
        (some "uswest1-devc") = some out ∧
      ∃ entry, out[0]? = some entry ∧
        (get_tablet_pools entry).countP
          (pool_has_name ("orders" ++ "_" ++ "primary")) =
        if (dget [("primary", (3306 : Int))] "primary").isSome
        then (["cellA"] : List String).length else 0 :=
  fanout_completeness pm_main ["cellA"] [⟨"orders", "main1"⟩]
    (some "default") (some "uswest1-devc") (some "zk.example:2181")
    (some "uswest1-devc") (by decide) 0 ⟨"orders", "main1"⟩
    [("primary", 3306)] rfl rfl "primary" (by decide)

/-- C6: when every keyspace's cluster is mapped, the output has one
keyspace entry per keyspace in input order, and each entry's tablet-pool
sequence is the `primary` block followed by the `migration` block, each
block listing cells in input order; the result is a pure function of the
inputs, with no sorting applied. -/
theorem fanout_ordering (pm : PortMappings) (cells : List String)
    (keyspaces : List KeyspaceConfig) (pool pc zk region : Option String)
    (h : ∀ kc ∈ keyspaces, (dget pm kc.cluster).isSome) :
    ∃ out, build_keyspaces_config pm cells keyspaces pool pc zk region = some out ∧
      out.length = keyspaces.length ∧
      ∀ (i : Nat) (kc : KeyspaceConfig) (m : List (String × Int)),
        keyspaces[i]? = some kc → dget pm kc.cluster = some m →
        out[i]? = some (keyspace_entry kc.keyspace
          (role_pool_specs m cells pool pc zk region kc "primary" ++
           role_pool_specs m cells pool pc zk region kc "migration")) := by
  obtain ⟨out, hout, hlen, hidx⟩ :=
    build_keyspaces_config_some pm cells keyspaces pool pc zk region h
  refine ⟨out, hout, hlen, ?_⟩
  intro i kc m hkc hm
  rw [hidx i kc m hkc hm, tablet_pools_loop_eq]

/-- C6 witness: ordering at the two-keyspace input. -/
theorem fanout_ordering_witness :
    ∃ out, build_keyspaces_config pm_two ["cellA"]
        [⟨"orders", "main1"⟩, ⟨"billing", "main2"⟩]
        (some "default") (some "uswest1-devc") (some "zk.example:2181")
        (some "uswest1-devc") = some out ∧
      out.length = ([⟨"orders", "main1"⟩, ⟨"billing", "main2"⟩] :
        List KeyspaceConfig).length ∧
      ∀ (i : Nat) (kc : KeyspaceConfig) (m : List (String × Int)),
        ([⟨"orders", "main1"⟩, ⟨"billing", "main2"⟩] :
          List KeyspaceConfig)[i]? = some kc →
        dget pm_two kc.cluster = some m →
        out[i]? = some (keyspace_entry kc.keyspace
          (role_pool_specs m ["cellA"] (some "default") (some "uswest1-devc")
            (some "zk.example:2181") (some "uswest1-devc") kc "primary" ++
           role_pool_specs m ["cellA"] (some "default") (some "uswest1-devc")
            (some "zk.example:2181") (some "uswest1-devc") kc "migration")) :=
  fanout_ordering pm_two ["cellA"] [⟨"orders", "main1"⟩, ⟨"billing", "main2"⟩]
    (some "default") (some "uswest1-devc") (some "zk.example:2181")
    (some "uswest1-devc") (by decide)

/-- C2 counterexample: the throttle source identifier the code derives
for role `migration` is the underscored table name
`migration_replication_delay`, not the claimed space-separated string
"migration replication delay". -/
theorem throttle_source_counterexample :
    throttle_params "migration" "main1" =
      ("migration_replication_delay", "7200") ∧
    "migration_replication_delay" ≠ "migration replication delay" :=
  ⟨rfl, by decide⟩

/-- C2 amended: for every cluster name, role `migration` derives source
table `migration_replication_delay` with threshold string "7200", and
role `primary` derives source table `read_replication_delay` with
threshold string "30" when the cluster name starts with `refresh` or
`sanitized` and "3" otherwise. -/
theorem throttle_policy (cluster : String) :
    throttle_params "migration" cluster =
      ("migration_replication_delay", "7200") ∧
    throttle_params "primary" cluster =
      ("read_replication_delay",
       if startswith cluster "refresh" || startswith cluster "sanitized"
       then "30" else "3") :=
  ⟨rfl, rfl⟩

/-- C3: the generated tablet-pool spec is named `{db_name}_{role}` and
its datastore type tag is `externalmaster` exactly when the role is
`primary`, `externalreplica` for any other role. -/
theorem pool_naming_rule (cell db_name keyspace : String) (port : Int)
    (pool pc zk : Option String) (tqt tmt tablet_type : String)
    (region : Option String) :
    jget (build_tablet_pool_config cell db_name keyspace port pool pc zk
        tqt tmt tablet_type region) "name" =
      some (.str (db_name ++ "_" ++ tablet_type)) ∧
    jget (build_tablet_pool_config cell db_name keyspace port pool pc zk
        tqt tmt tablet_type region) "type" =
      some (.str (if tablet_type = "primary"
        then "externalmaster" else "externalreplica")) :=
  ⟨rfl, rfl⟩

/-- C5: evaluating `build_tablet_pool_config` at the unrecognized role
`rdonly` silently yields a complete spec of datastore type
`externalreplica` named `orders_rdonly` — no error path exists for roles
outside {primary, migration}, contrary to the spec's requirement that
synthesis fail with a configuration error. -/
theorem unrecognized_role_behavior :
    jget (build_tablet_pool_config "cellA" "orders" "orders" 3306
        (some "default") (some "uswest1-devc") (some "zk.example:2181")
        "read_replication_delay" "3" "rdonly" (some "uswest1-devc"))
      "type" = some (.str "externalreplica") ∧
    jget (build_tablet_pool_config "cellA" "orders" "orders" 3306
        (some "default") (some "uswest1-devc") (some "zk.example:2181")
        "read_replication_delay" "3" "rdonly" (some "uswest1-devc"))
      "name" = some (.str "orders_rdonly") :=
  ⟨rfl, rfl⟩

/-- C7: the end-to-end scenario — `cells=["cellA"]`, one keyspace
`orders` on cluster `main1`, region `uswest1-devc`, port mapping
exposing only `primary` for `main1` — synthesizes exactly one keyspace
entry holding exactly one tablet-pool spec, for cell `cellA` with name
`orders_primary`, throttle metrics threshold "3" and `VAULT_ADDR`
templated to the `uswest1-devc` vault address. -/
theorem end_to_end_scenario :
    (generate_vitess_instance_config pm_main ic_orders).map (fun cfg =>
      (get_keyspaces cfg).map (fun e =>
        (get_tablet_pools e).map (fun p =>
          (jget p "cell", jget p "name",
           get_vttablet_flag p "throttle_metrics_threshold",
           env_values (get_extra_env p) "VAULT_ADDR")))) =
    some [[(some (.str "cellA"), some (.str "orders_primary"),
            some (.str "3"),
            [some (.str "https://vault-dre.uswest1-devc.yelpcorp.com:8200")])]] :=
  rfl

/-- C10: every generated tablet-pool spec carries an `extraLabels` entry
`tablet_type` equal to its own `name` field, i.e. `{db_name}_{role}`. -/
theorem tablet_type_label (cell db_name keyspace : String) (port : Int)
    (pool pc zk : Option String) (tqt tmt tablet_type : String)
    (region : Option String) :
    get_extra_label (build_tablet_pool_config cell db_name keyspace port
        pool pc zk tqt tmt tablet_type region) "tablet_type" =
      jget (build_tablet_pool_config cell db_name keyspace port pool pc zk
        tqt tmt tablet_type region) "name" ∧
    jget (build_tablet_pool_config cell db_name keyspace port pool pc zk
        tqt tmt tablet_type region) "name" =
      some (.str (db_name ++ "_" ++ tablet_type)) :=
  ⟨rfl, rfl⟩

/-- C4 counterexample: with the required field `cells` absent (all other
fields present), `generate_vitess_instance_config` does not return
normally — iterating `None` in the `cells` list comprehension raises a
`TypeError`, modelled by `none` — refuting the claim that absence of any
required field propagates a placeholder and returns normally. -/
theorem missing_cells_aborts :
    generate_vitess_instance_config pm_main { ic_orders with cells := none } =
      none := rfl

/-- C4 amended: absence of any of the seven scalar fields (`cpus`,
`mem`, `deploy_group`, `zk_address`, `paasta_pool`, `paasta_cluster`,
`region`) propagates a `None`/"None" placeholder into the output tree
and synthesis returns normally; absence of `cells` or `keyspaces`
instead aborts synthesis with a `TypeError` from iterating `None`. -/
theorem missing_field_behavior :
    ((generate_vitess_instance_config pm_main
        { ic_orders with cpus := none }).map (fun cfg => jget cfg "cpus") =
      some (some .null)) ∧
    ((generate_vitess_instance_config pm_main
        { ic_orders with mem := none }).map (fun cfg => jget cfg "mem") =
      some (some .null)) ∧
    ((generate_vitess_instance_config pm_main
        { ic_orders with deploy_group := none }).map
          (fun cfg => jget cfg "deploy_group") = some (some .null)) ∧
    ((generate_vitess_instance_config pm_main
        { ic_orders with zk_address := none }).map get_lockserver_address =
      some (some .null)) ∧
    ((generate_vitess_instance_config pm_main
        { ic_orders with paasta_pool := none }).map get_vtadmin_pool_values =
      some (some (.arr [.null]))) ∧
    ((generate_vitess_instance_config pm_main
        { ic_orders with paasta_cluster := none }).map
          (fun cfg => get_vtadmin_env cfg "PAASTA_CLUSTER") =
      some [some .null]) ∧
    ((generate_vitess_instance_config pm_main
        { ic_orders with region := none }).map (fun cfg =>
          (get_keyspaces cfg).map (fun e =>
            (get_tablet_pools e).map (fun p =>
              get_vttablet_flag p "db-credentials-vault-addr"))) =
      some [[some (.str "https://vault-dre.None.yelpcorp.com:8200")]]) ∧
    (generate_vitess_instance_config pm_main
      { ic_orders with cells := none } = none) ∧
    (generate_vitess_instance_config pm_main
      { ic_orders with keyspaces := none } = none) :=
  ⟨rfl, rfl, rfl, rfl, rfl, rfl, rfl, rfl, rfl⟩

/-- The instrumented and plain embeddings agree on the produced config. -/
theorem build_keyspaces_config_counted_fst (pm : PortMappings)
    (cells : List String) (keyspaces : List KeyspaceConfig)
    (pool pc zk region : Option String) :
    (build_keyspaces_config_counted pm cells keyspaces pool pc zk region).1 =
      build_keyspaces_config pm cells keyspaces pool pc zk region := by
  induction keyspaces with
  | nil => rfl
  | cons kc0 rest ih =>
    cases hm : dget pm kc0.cluster with
    | none => simp [build_keyspaces_config_counted, build_keyspaces_config, hm]
    | some m =>
      rcases hb : build_keyspaces_config_counted pm cells rest pool pc zk region
        with ⟨r, n⟩
      have hr : r = build_keyspaces_config pm cells rest pool pc zk region := by
        rw [← ih, hb]
      cases r <;>
        simp [build_keyspaces_config_counted, build_keyspaces_config, hm, hb, ← hr]

/-- When every keyspace's cluster is mapped, the collaborator is queried
once per keyspace. -/
theorem build_keyspaces_config_counted_snd (pm : PortMappings)
    (cells : List String) (keyspaces : List KeyspaceConfig)
    (pool pc zk region : Option String)
    (h : ∀ kc ∈ keyspaces, (dget pm kc.cluster).isSome) :
    (build_keyspaces_config_counted pm cells keyspaces pool pc zk region).2 =
      keyspaces.length := by
  induction keyspaces with
  | nil => rfl
  | cons kc0 rest ih =>
    have h0 : (dget pm kc0.cluster).isSome := h kc0 (by simp)
    obtain ⟨m0, hm0⟩ := Option.isSome_iff_exists.mp h0
    have ihr := ih (fun kc hkc => h kc (by simp [hkc]))
    rcases hb : build_keyspaces_config_counted pm cells rest pool pc zk region
      with ⟨r, n⟩
    have hn : n = rest.length := by rw [← ihr, hb]
    cases r <;>
      simp [build_keyspaces_config_counted, hm0, hb, hn]

/-- Synthesis-level count agreement. -/
theorem generate_vitess_instance_config_counted_fst (pm : PortMappings)
    (ic : InstanceConfig) :
    (generate_vitess_instance_config_counted pm ic).1 =
      generate_vitess_instance_config pm ic := by
  cases hc : ic.cells with
  | none => simp [generate_vitess_instance_config_counted,
      generate_vitess_instance_config, hc]
  | some cells =>
    cases hk : ic.keyspaces with
    | none => simp [generate_vitess_instance_config_counted,
        generate_vitess_instance_config, hc, hk]
    | some ks =>
      have hfst := build_keyspaces_config_counted_fst pm cells ks
        ic.paasta_pool ic.paasta_cluster ic.zk_address ic.region
      rcases hb : build_keyspaces_config_counted pm cells ks
          ic.paasta_pool ic.paasta_cluster ic.zk_address ic.region with ⟨r, n⟩
      rw [hb] at hfst
      cases r <;>
        simp [generate_vitess_instance_config_counted,
          generate_vitess_instance_config, hc, hk, hb, ← hfst]

/-- C9 counterexample: a synthesis call over two keyspaces queries the
port-mapping collaborator twice, not once. -/
theorem query_count_counterexample :
    (generate_vitess_instance_config_counted pm_two ic_two).2 = 2 ∧
    (2 : Nat) ≠ 1 := ⟨rfl, by decide⟩

/-- C9 amended: the collaborator is queried once per keyspace descriptor
(the load sits inside the keyspace loop), i.e. `len(keyspaces)` times
per synthesis call when every keyspace's cluster is mapped, not once per
call. -/
theorem query_count_per_keyspace (pm : PortMappings) (ic : InstanceConfig)
    (cells : List String) (ks : List KeyspaceConfig)
    (hc : ic.cells = some cells) (hk : ic.keyspaces = some ks)
    (h : ∀ kc ∈ ks, (dget pm kc.cluster).isSome) :
    (generate_vitess_instance_config_counted pm ic).2 = ks.length := by
  have hsnd := build_keyspaces_config_counted_snd pm cells ks
    ic.paasta_pool ic.paasta_cluster ic.zk_address ic.region h
  rcases hb : build_keyspaces_config_counted pm cells ks
      ic.paasta_pool ic.paasta_cluster ic.zk_address ic.region with ⟨r, n⟩
  rw [hb] at hsnd
  cases r <;>
    simp [generate_vitess_instance_config_counted, hc, hk, hb, hsnd]

/-- C9 amended witness: the two-keyspace call makes two queries. -/
theorem query_count_per_keyspace_witness :
    (generate_vitess_instance_config_counted pm_two ic_two).2 =
      ([⟨"orders", "main1"⟩, ⟨"billing", "main2"⟩] :
        List KeyspaceConfig).length :=
  query_count_per_keyspace pm_two ic_two ["cellA"]
    [⟨"orders", "main1"⟩, ⟨"billing", "main2"⟩] rfl rfl (by decide)

/-- A fold whose step never changes the state component keeps the
initial state. -/
theorem foldl_snd_const {α β σ : Type} (f : List β × σ → α → List β × σ)
    (hf : ∀ acc a, (f acc a).2 = acc.2) :
    ∀ (l : List α) (acc : List β × σ), (List.foldl f acc l).2 = acc.2 := by
  intro l
  induction l with
  | nil => intro acc; rfl
  | cons a rest ih =>
    intro acc
    rw [List.foldl_cons, ih (f acc a), hf acc a]

/-- The cell fan-out never writes the template library. -/
theorem build_cells_st_snd (lib : TemplateLib) (cells : List String)
    (pool pc region : Option String) :
    (build_cells_st lib cells pool pc region).2 = lib :=
  foldl_snd_const
    (fun acc cell =>
      let r := build_cell_config_st acc.2 cell pool pc region
      (acc.1 ++ [r.1], r.2))
    (fun _ _ => rfl) cells ([], lib)

/-- The per-cell tablet-pool fan-out never writes the template library. -/
theorem tablet_pools_cells_st_snd (lib : TemplateLib) (cells : List String)
    (kc : KeyspaceConfig) (port : Int)
    (pool pc zk region : Option String) (tablet_type : String) :
    (tablet_pools_cells_st lib cells kc port pool pc zk region
      tablet_type).2 = lib :=
  foldl_snd_const
    (fun acc cell =>
      let tp := throttle_params tablet_type kc.cluster
      let r := build_tablet_pool_config_st acc.2 cell kc.keyspace kc.keyspace
        port pool pc zk tp.1 tp.2 tablet_type region
      (acc.1 ++ [r.1], r.2))
    (fun _ _ => rfl) cells ([], lib)

/-- The role loop never writes the template library. -/
theorem tablet_pools_loop_st_snd (lib : TemplateLib)
    (m : List (String × Int)) (cells : List String)
    (pool pc zk region : Option String) (kc : KeyspaceConfig) :
    (tablet_pools_loop_st lib m cells pool pc zk region kc).2 = lib := by
  refine foldl_snd_const _ ?_ TABLET_TYPES ([], lib)
  intro acc t
  cases h : dget m t
  · simp [h]
  · simp [h, tablet_pools_cells_st_snd]

/-- The keyspace fan-out never writes the template library. -/
theorem build_keyspaces_config_st_snd (lib : TemplateLib)
    (pm : PortMappings) (cells : List String)
    (keyspaces : List KeyspaceConfig)
    (pool pc zk region : Option String) :
    (build_keyspaces_config_st lib pm cells keyspaces pool pc zk
      region).2 = lib := by
  induction keyspaces generalizing lib with
  | nil => rfl
  | cons kc0 rest ih =>
    cases hm : dget pm kc0.cluster with
    | none => simp [build_keyspaces_config_st, hm]
    | some m =>
      have hpools := tablet_pools_loop_st_snd lib m cells pool pc zk region kc0
      rcases hb : build_keyspaces_config_st
          (tablet_pools_loop_st lib m cells pool pc zk region kc0).2
          pm cells rest pool pc zk region with ⟨r, lib'⟩
      have hlib : lib' = lib := by
        have h3 := ih ((tablet_pools_loop_st lib m cells pool pc zk
          region kc0).2)
        rw [hb] at h3
        simpa [hpools] using h3
      cases r <;> simp [build_keyspaces_config_st, hm, hb, hlib]

/-- A full synthesis call never writes the template library. -/
theorem generate_vitess_instance_config_st_snd (lib : TemplateLib)
    (pm : PortMappings) (ic : InstanceConfig) :
    (generate_vitess_instance_config_st lib pm ic).2 = lib := by
  cases hc : ic.cells with
  | none => simp [generate_vitess_instance_config_st, hc]
  | some cells =>
    cases hk : ic.keyspaces with
    | none =>
      simp [generate_vitess_instance_config_st, hc, hk,
        build_vt_admin_config_st, build_vitess_dashboard_config_st,
        build_cells_st_snd]
    | some ks =>
      have hcc := build_cells_st_snd lib cells ic.paasta_pool
        ic.paasta_cluster ic.region
      rcases hb : build_keyspaces_config_st
          (build_vt_admin_config_st
            (build_vitess_dashboard_config_st
              (build_cells_st lib cells ic.paasta_pool ic.paasta_cluster
                ic.region).2
              cells ic.paasta_pool ic.paasta_cluster ic.zk_address).2
            cells ic.paasta_pool ic.paasta_cluster).2
          pm cells ks ic.paasta_pool ic.paasta_cluster ic.zk_address
          ic.region with ⟨r, lib'⟩
      have hlib : lib' = lib := by
        have h3 := build_keyspaces_config_st_snd
          (build_vt_admin_config_st
            (build_vitess_dashboard_config_st
              (build_cells_st lib cells ic.paasta_pool ic.paasta_cluster
                ic.region).2
              cells ic.paasta_pool ic.paasta_cluster ic.zk_address).2
            cells ic.paasta_pool ic.paasta_cluster).2
          pm cells ks ic.paasta_pool ic.paasta_cluster ic.zk_address ic.region
        rw [hb] at h3
        simpa [build_vt_admin_config_st, build_vitess_dashboard_config_st,
          hcc] using h3
      cases r <;>
        simp [generate_vitess_instance_config_st, hc, hk, hb, hlib]

/-- A fold that appends a state-derived value per element, starting from
state `s`, appends the mapped list and keeps the state. -/
theorem foldl_map_general {α β σ : Type} (f : σ → α → β)
    (step : List β × σ → α → List β × σ)
    (hstep : ∀ acc a, step acc a = (acc.1 ++ [f acc.2 a], acc.2)) :
    ∀ (l : List α) (init : List β) (s : σ),
      List.foldl step (init, s) l = (init ++ l.map (f s), s) := by
  intro l
  induction l with
  | nil => intro init s; simp
  | cons a rest ih =>
    intro init s
    rw [List.foldl_cons, hstep, ih]
    simp

/-- With the library as loaded at module import, the state-threaded cell
fan-out computes exactly the pure `build_cell_config` values. -/
theorem build_cells_st_module (cells : List String)
    (pool pc region : Option String) :
    build_cells_st module_template_lib cells pool pc region =
      (cells.map (fun c => build_cell_config c pool pc region),
       module_template_lib) :=
  foldl_map_general
    (fun (s : TemplateLib) c => build_cell_config_tpl s.vtgate_extra_env
      c pool pc region)
    _ (fun _ _ => rfl) cells [] module_template_lib

/-- With the module library, the state-threaded per-cell pool fan-out
computes exactly the pure `build_tablet_pool_config` values. -/
theorem tablet_pools_cells_st_module (cells : List String)
    (kc : KeyspaceConfig) (port : Int)
    (pool pc zk region : Option String) (tablet_type : String) :
    tablet_pools_cells_st module_template_lib cells kc port pool pc zk
        region tablet_type =
      (cells.map (fun cell => build_tablet_pool_config cell kc.keyspace
        kc.keyspace port pool pc zk
        (throttle_params tablet_type kc.cluster).1
        (throttle_params tablet_type kc.cluster).2 tablet_type region),
       module_template_lib) :=
  foldl_map_general
    (fun (s : TemplateLib) cell => build_tablet_pool_config_tpl
      s.vttablet_extra_flags s.vttablet_extra_env cell kc.keyspace
      kc.keyspace port pool pc zk
      (throttle_params tablet_type kc.cluster).1
      (throttle_params tablet_type kc.cluster).2 tablet_type region)
    _ (fun _ _ => rfl) cells [] module_template_lib

/-- With the module library, the state-threaded role loop computes
exactly the pure `tablet_pools_loop`. -/
theorem tablet_pools_loop_st_module (m : List (String × Int))
    (cells : List String) (pool pc zk region : Option String)
    (kc : KeyspaceConfig) :
    tablet_pools_loop_st module_template_lib m cells pool pc zk region kc =
      (tablet_pools_loop m cells pool pc zk region kc,
       module_template_lib) := by
  unfold tablet_pools_loop_st tablet_pools_loop TABLET_TYPES
  cases h1 : dget m "primary" <;> cases h2 : dget m "migration" <;>
    simp [List.foldl, h1, h2, tablet_pools_cells_st_module]

/-- With the module library, the state-threaded keyspace fan-out
computes exactly the pure `build_keyspaces_config`. -/
theorem build_keyspaces_config_st_module (pm : PortMappings)
    (cells : List String) (keyspaces : List KeyspaceConfig)
    (pool pc zk region : Option String) :
    build_keyspaces_config_st module_template_lib pm cells keyspaces
        pool pc zk region =
      (build_keyspaces_config pm cells keyspaces pool pc zk region,
       module_template_lib) := by
  induction keyspaces with
  | nil => rfl
  | cons kc0 rest ih =>
    cases hm : dget pm kc0.cluster with
    | none =>
      simp [build_keyspaces_config_st, build_keyspaces_config, hm]
    | some m =>
      rcases hr : build_keyspaces_config pm cells rest pool pc zk region
        with _ | restCfg <;>
        simp [build_keyspaces_config_st, build_keyspaces_config, hm,
          tablet_pools_loop_st_module, ih, hr]

/-- With the module library, a state-threaded synthesis call computes
exactly the pure `generate_vitess_instance_config`. -/
theorem generate_vitess_instance_config_st_module (pm : PortMappings)
    (ic : InstanceConfig) :
    generate_vitess_instance_config_st module_template_lib pm ic =
      (generate_vitess_instance_config pm ic, module_template_lib) := by
  cases hc : ic.cells with
  | none =>
    simp [generate_vitess_instance_config_st,
      generate_vitess_instance_config, hc]
  | some cells =>
    cases hk : ic.keyspaces with
    | none =>
      simp only [generate_vitess_instance_config_st,
        generate_vitess_instance_config, hc, hk, build_cells_st_module,
        build_vitess_dashboard_config_st, build_vt_admin_config_st]
    | some ks =>
      simp only [generate_vitess_instance_config_st,
        generate_vitess_instance_config, hc, hk, build_cells_st_module,
        build_vitess_dashboard_config_st, build_vt_admin_config_st]
      rw [build_keyspaces_config_st_module]
      rcases hb : build_keyspaces_config pm cells ks ic.paasta_pool
          ic.paasta_cluster ic.zk_address ic.region with _ | ksCfg <;>
        simp [hb, build_cell_config, build_vitess_dashboard_config,
          build_vt_admin_config, module_template_lib]

/-- C8: no synthesis call writes the shared template library — the copy
discipline (`copy.deepcopy` / `.copy()` before every mutation) means the
library state returned by a state-threaded synthesis call is exactly the
input state — so a second synthesis call, with any other instance
description (in particular a different region), computes exactly what it
would compute against an untouched library.
`generate_vitess_instance_config_st_module` certifies that this
state-threaded model computes the pure embedding's output. -/
theorem template_isolation (lib : TemplateLib) (pm : PortMappings)
    (ic1 ic2 : InstanceConfig) :
    (generate_vitess_instance_config_st lib pm ic1).2 = lib ∧
    (generate_vitess_instance_config_st
        (generate_vitess_instance_config_st lib pm ic1).2 pm ic2).1 =
      (generate_vitess_instance_config_st lib pm ic2).1 := by
  refine ⟨generate_vitess_instance_config_st_snd lib pm ic1, ?_⟩
  rw [generate_vitess_instance_config_st_snd lib pm ic1]
